import Mathlib

/-!
Shallow embedding of the Explicit VR Big Endian codec
(src/core/src/data_element/explicit_be.rs).

Bytes are modelled as Nat values below 256; a byte source is a List Nat
consumed from the front; a byte sink is modelled by returning the list of
bytes written.  Machine integers are Nat (resp. Int for the signed scalar
reads) with explicit reductions modulo 2 to the field width where the code
truncates.
-/

namespace ExplicitBE

/-- Modelled from the spec: the error type (the crate error module is outside
src).  Per the spec there are exactly two error kinds: an I/O-class failure
(short read or write) and the invalid-structure failure raised when a
sequence-item header tag is not one of the three reserved marker tags. -/
inductive Err where
  | ioError : Err
  | invalidFormat : Err
deriving DecidableEq, Repr

/-- Modelled from the spec: the Value Representation registry
(attribute::ValueRepresentation is outside src).  A closed enumeration of
two-letter format codes, each with a canonical 2-byte ASCII wire encoding;
UN is the decode-time fallback. -/
inductive ValueRepresentation where
  | AE | AS | AT | CS | DA | DS | DT | FL | FD | IS
  | LO | LT | OB | OD | OF | OL | OW | PN | SH | SL
  | SQ | SS | ST | TM | UC | UI | UL | UN | UR | US | UT
deriving DecidableEq, Repr

namespace ValueRepresentation

/-- Modelled from the spec: the total function from a VR variant to its
canonical 2-byte ASCII wire code. -/
def to_bytes : ValueRepresentation → Nat × Nat
  | AE => (65, 69) | AS => (65, 83) | AT => (65, 84) | CS => (67, 83)
  | DA => (68, 65) | DS => (68, 83) | DT => (68, 84) | FL => (70, 76)
  | FD => (70, 68) | IS => (73, 83) | LO => (76, 79) | LT => (76, 84)
  | OB => (79, 66) | OD => (79, 68) | OF => (79, 70) | OL => (79, 76)
  | OW => (79, 87) | PN => (80, 78) | SH => (83, 72) | SL => (83, 76)
  | SQ => (83, 81) | SS => (83, 83) | ST => (83, 84) | TM => (84, 77)
  | UC => (85, 67) | UI => (85, 73) | UL => (85, 76) | UN => (85, 78)
  | UR => (85, 82) | US => (85, 83) | UT => (85, 84)

/-- Modelled from the spec: the partial inverse, mapping a 2-byte wire code
to the VR variant with that code, or none when the code matches no defined
VR. -/
def from_binary : Nat × Nat → Option ValueRepresentation
  | (65, 69) => some AE | (65, 83) => some AS | (65, 84) => some AT
  | (67, 83) => some CS | (68, 65) => some DA | (68, 83) => some DS
  | (68, 84) => some DT | (70, 76) => some FL | (70, 68) => some FD
  | (73, 83) => some IS | (76, 79) => some LO | (76, 84) => some LT
  | (79, 66) => some OB | (79, 68) => some OD | (79, 70) => some OF
  | (79, 76) => some OL | (79, 87) => some OW | (80, 78) => some PN
  | (83, 72) => some SH | (83, 76) => some SL | (83, 81) => some SQ
  | (83, 83) => some SS | (83, 84) => some ST | (84, 77) => some TM
  | (85, 67) => some UC | (85, 73) => some UI | (85, 76) => some UL
  | (85, 78) => some UN | (85, 82) => some UR | (85, 83) => some US
  | (85, 84) => some UT
  | _ => none

end ValueRepresentation

/-- Derived classification used only in theorem statements: the ten VR
variants that the source lists in the long-form arm of its match (in both
decode_header and encode_element_header). -/
def isLongVR : ValueRepresentation → Bool
  | .OB | .OD | .OF | .OL | .OW | .SQ | .UC | .UR | .UT | .UN => true
  | _ => false

/-- Data element header: tag (group, element), VR, and value length, as in
the DataElementHeader struct used by the source (tag is the pair of two
16-bit unsigned integers). -/
structure DataElementHeader where
  tag : Nat × Nat
  vr : ValueRepresentation
  len : Nat
deriving DecidableEq, Repr

/-- Modelled from the spec: the sequence item header (data_element module,
outside src): a tag together with a length, with the invariant that the tag
is one of the three reserved marker tags. -/
structure SequenceItemHeader where
  tag : Nat × Nat
  len : Nat
deriving DecidableEq, Repr

/-- Modelled from the spec: constructing a sequence-item header succeeds for
the three reserved marker tags (item start, item delimiter, sequence
delimiter) and fails with the invalid-structure error for any other tag. -/
def SequenceItemHeader.new (tag : Nat × Nat) (len : Nat) :
    Except Err SequenceItemHeader :=
  if tag = (0xFFFE, 0xE000) ∨ tag = (0xFFFE, 0xE00D) ∨ tag = (0xFFFE, 0xE0DD)
  then Except.ok { tag := tag, len := len }
  else Except.error Err.invalidFormat

/-- BigEndian::read_u16 on two bytes. -/
def read_u16be (b0 b1 : Nat) : Nat := b0 * 256 + b1

/-- BigEndian::read_u32 on four bytes. -/
def read_u32be (b0 b1 b2 b3 : Nat) : Nat :=
  ((b0 * 256 + b1) * 256 + b2) * 256 + b3

/-- BigEndian::read_i16: the same two bytes as a twos-complement 16-bit
signed integer. -/
def read_i16be (b0 b1 : Nat) : Int :=
  if read_u16be b0 b1 < 32768 then (read_u16be b0 b1 : Int)
  else (read_u16be b0 b1 : Int) - 65536

/-- BigEndian::read_i32: the same four bytes as a twos-complement 32-bit
signed integer. -/
def read_i32be (b0 b1 b2 b3 : Nat) : Int :=
  if read_u32be b0 b1 b2 b3 < 2147483648 then (read_u32be b0 b1 b2 b3 : Int)
  else (read_u32be b0 b1 b2 b3 : Int) - 4294967296

/-- BigEndian::write_u16: the two big-endian bytes of a 16-bit value (the
reductions modulo 256 make the truncation to the field width explicit). -/
def write_u16be (v : Nat) : List Nat := [v / 256 % 256, v % 256]

/-- BigEndian::write_u32: the four big-endian bytes of a 32-bit value. -/
def write_u32be (v : Nat) : List Nat :=
  [v / 16777216 % 256, v / 65536 % 256, v / 256 % 256, v % 256]

/-- Overwriting bytes of a buffer starting at a given offset, as a slice
write such as BigEndian::write_u32(&mut buf[8..], v) does. -/
def setBytes (buf : List Nat) (off : Nat) (bs : List Nat) : List Nat :=
  buf.take off ++ bs ++ buf.drop (off + bs.length)

/-- A decoding step: consumes bytes from the front of the source and returns
a result together with the remaining source.  Mirrors a method taking
source: &mut S. -/
def DecM (α : Type) : Type := List Nat → Except Err α × List Nat

/-- source.read_exact(&mut buf[0..2]): two bytes, or an I/O error on a short
read.  The Rust contract leaves the amount consumed on a short read
unspecified; here the source is returned unchanged in that case, and no
claim depends on this choice. -/
def read2 : DecM (Nat × Nat) := fun s =>
  match s with
  | b0 :: b1 :: rest => (Except.ok (b0, b1), rest)
  | _ => (Except.error Err.ioError, s)

/-- source.read_exact(&mut buf) for a 4-byte buffer. -/
def read4 : DecM (Nat × Nat × Nat × Nat) := fun s =>
  match s with
  | b0 :: b1 :: b2 :: b3 :: rest => (Except.ok (b0, b1, b2, b3), rest)
  | _ => (Except.error Err.ioError, s)

/-- ExplicitVRBigEndianDecoder::decode_header: 4 tag bytes, 2 VR bytes with
fallback to UN on an unrecognised code, then either (2 reserved bytes + a
4-byte big-endian length) for the ten long-form VRs or a 2-byte big-endian
length widened to u32 for every other VR. -/
def decode_header : DecM DataElementHeader := fun s =>
  match read4 s with
  | (Except.error e, s1) => (Except.error e, s1)
  | (Except.ok (b0, b1, b2, b3), s1) =>
    let group := read_u16be b0 b1
    let element := read_u16be b2 b3
    match read2 s1 with
    | (Except.error e, s2) => (Except.error e, s2)
    | (Except.ok (v0, v1), s2) =>
      let vr := (ValueRepresentation.from_binary (v0, v1)).getD
        ValueRepresentation.UN
      match vr with
      | .OB | .OD | .OF | .OL | .OW | .SQ | .UC | .UR | .UT | .UN =>
        match read2 s2 with
        | (Except.error e, s3) => (Except.error e, s3)
        | (Except.ok _, s3) =>
          match read4 s3 with
          | (Except.error e, s4) => (Except.error e, s4)
          | (Except.ok (l0, l1, l2, l3), s4) =>
            (Except.ok { tag := (group, element), vr := vr,
                         len := read_u32be l0 l1 l2 l3 }, s4)
      | _ =>
        match read2 s2 with
        | (Except.error e, s3) => (Except.error e, s3)
        | (Except.ok (l0, l1), s3) =>
          (Except.ok { tag := (group, element), vr := vr,
                       len := read_u16be l0 l1 }, s3)

/-- ExplicitVRBigEndianDecoder::decode_item_header: 4 tag bytes + a 4-byte
big-endian length, then SequenceItemHeader::new validates the tag. -/
def decode_item_header : DecM SequenceItemHeader := fun s =>
  match read4 s with
  | (Except.error e, s1) => (Except.error e, s1)
  | (Except.ok (b0, b1, b2, b3), s1) =>
    let group := read_u16be b0 b1
    let element := read_u16be b2 b3
    match read4 s1 with
    | (Except.error e, s2) => (Except.error e, s2)
    | (Except.ok (l0, l1, l2, l3), s2) =>
      (SequenceItemHeader.new (group, element) (read_u32be l0 l1 l2 l3), s2)

/-- ExplicitVRBigEndianDecoder::decode_us. -/
def decode_us : DecM Nat := fun s =>
  match read2 s with
  | (Except.error e, s1) => (Except.error e, s1)
  | (Except.ok (b0, b1), s1) => (Except.ok (read_u16be b0 b1), s1)

/-- ExplicitVRBigEndianDecoder::decode_ul. -/
def decode_ul : DecM Nat := fun s =>
  match read4 s with
  | (Except.error e, s1) => (Except.error e, s1)
  | (Except.ok (b0, b1, b2, b3), s1) =>
    (Except.ok (read_u32be b0 b1 b2 b3), s1)

/-- ExplicitVRBigEndianDecoder::decode_ss. -/
def decode_ss : DecM Int := fun s =>
  match read2 s with
  | (Except.error e, s1) => (Except.error e, s1)
  | (Except.ok (b0, b1), s1) => (Except.ok (read_i16be b0 b1), s1)

/-- ExplicitVRBigEndianDecoder::decode_sl. -/
def decode_sl : DecM Int := fun s =>
  match read4 s with
  | (Except.error e, s1) => (Except.error e, s1)
  | (Except.ok (b0, b1, b2, b3), s1) =>
    (Except.ok (read_i32be b0 b1 b2 b3), s1)

/-- ExplicitVRBigEndianEncoder::encode_element_header.  The bytes written to
the sink by the single write_all of the stack buffer: long-form VRs use a
12-byte buffer (tag, VR code, two zero reserved bytes, u32 length),
short-form an 8-byte buffer (tag, VR code, de.len as u16). -/
def encode_element_header (de : DataElementHeader) : List Nat :=
  match de.vr with
  | .OB | .OD | .OF | .OL | .OW | .SQ | .UC | .UR | .UT | .UN =>
    let buf0 := List.replicate 12 0
    let buf1 := setBytes buf0 0 (write_u16be de.tag.1)
    let buf2 := setBytes buf1 2 (write_u16be de.tag.2)
    let vrb := de.vr.to_bytes
    let buf3 := setBytes buf2 4 [vrb.1, vrb.2]
    setBytes buf3 8 (write_u32be de.len)
  | _ =>
    let buf0 := List.replicate 8 0
    let buf1 := setBytes buf0 0 (write_u16be de.tag.1)
    let buf2 := setBytes buf1 2 (write_u16be de.tag.2)
    let vrb := de.vr.to_bytes
    let buf3 := setBytes buf2 4 [vrb.1, vrb.2]
    setBytes buf3 6 (write_u16be (de.len % 65536))

/-- ExplicitVRBigEndianEncoder::encode_item_header.  Faithful to the source:
both write_u16 calls target the start of the 8-byte buffer (the source
passes &mut buf, not &mut buf[2..], for the element half of the tag), so the
second overwrites the first. -/
def encode_item_header (len : Nat) : List Nat :=
  let buf0 := List.replicate 8 0
  let buf1 := setBytes buf0 0 (write_u16be 0xFFFE)
  let buf2 := setBytes buf1 0 (write_u16be 0xE000)
  setBytes buf2 4 (write_u32be len)

/-- ExplicitVRBigEndianEncoder::encode_item_delimiter; same buffer layout
(and the same offset-0 overwrite) as encode_item_header, with length 0. -/
def encode_item_delimiter : List Nat :=
  let buf0 := List.replicate 8 0
  let buf1 := setBytes buf0 0 (write_u16be 0xFFFE)
  let buf2 := setBytes buf1 0 (write_u16be 0xE00D)
  setBytes buf2 4 (write_u32be 0)

/-- ExplicitVRBigEndianEncoder::encode_sequence_delimiter. -/
def encode_sequence_delimiter : List Nat :=
  let buf0 := List.replicate 8 0
  let buf1 := setBytes buf0 0 (write_u16be 0xFFFE)
  let buf2 := setBytes buf1 0 (write_u16be 0xE0DD)
  setBytes buf2 4 (write_u32be 0)

end ExplicitBE

namespace ExplicitBE

/-- The VR registry is its own inverse: decoding the canonical wire code of
any VR variant yields that variant. -/
theorem from_binary_to_bytes (vr : ValueRepresentation) :
    ValueRepresentation.from_binary vr.to_bytes = some vr := by
  cases vr <;> rfl

set_option maxHeartbeats 1000000 in
/-- Decoding a 12-byte header whose VR bytes resolve (after the UN fallback)
to a long-form VR: the reserved bytes are discarded and the length is the
4-byte big-endian field. -/
theorem decode_header_long_of
    (b0 b1 b2 b3 v0 v1 r0 r1 l0 l1 l2 l3 : Nat) (rest : List Nat)
    (vr : ValueRepresentation)
    (hvr : (ValueRepresentation.from_binary (v0, v1)).getD
      ValueRepresentation.UN = vr)
    (h : isLongVR vr = true) :
    decode_header (b0::b1::b2::b3::v0::v1::r0::r1::l0::l1::l2::l3::rest) =
      (Except.ok ⟨(read_u16be b0 b1, read_u16be b2 b3), vr,
        read_u32be l0 l1 l2 l3⟩, rest) := by
  cases vr <;> simp_all [decode_header, read2, read4, isLongVR]

set_option maxHeartbeats 1000000 in
/-- Decoding an 8-byte header whose VR bytes resolve to a short-form VR: the
length is the 2-byte big-endian field widened to u32. -/
theorem decode_header_short_of
    (b0 b1 b2 b3 v0 v1 l0 l1 : Nat) (rest : List Nat)
    (vr : ValueRepresentation)
    (hvr : (ValueRepresentation.from_binary (v0, v1)).getD
      ValueRepresentation.UN = vr)
    (h : isLongVR vr = false) :
    decode_header (b0::b1::b2::b3::v0::v1::l0::l1::rest) =
      (Except.ok ⟨(read_u16be b0 b1, read_u16be b2 b3), vr,
        read_u16be l0 l1⟩, rest) := by
  cases vr <;> simp_all [decode_header, read2, read4, isLongVR]

set_option maxHeartbeats 2000000 in
/-- Exact result of decoding an encoded element header: tag and VR are
recovered exactly, and the length is recovered exactly for long-form VRs and
modulo 65536 for short-form VRs. -/
theorem decode_encode_eq (vr : ValueRepresentation) (g e len : Nat)
    (hg : g < 65536) (he : e < 65536) (hlen : len < 4294967296)
    (rest : List Nat) :
    decode_header (encode_element_header ⟨(g, e), vr, len⟩ ++ rest) =
      (Except.ok ⟨(g, e), vr,
        if isLongVR vr = true then len else len % 65536⟩, rest) := by
  cases vr <;>
    simp [encode_element_header, decode_header, setBytes, read2, read4,
      read_u16be, read_u32be, write_u16be, write_u32be,
      ValueRepresentation.to_bytes, ValueRepresentation.from_binary,
      isLongVR, List.replicate] <;>
    omega

/-- C1: the claim says encode_item_header(len) writes the item-start tag
(0xFFFE, 0xE000) as 4 big-endian bytes followed by len as 4 big-endian
bytes.  The code instead emits tag bytes [0xE0, 0x00, 0x00, 0x00], because
both 16-bit tag writes target offset 0 of the buffer and the second
overwrites the first: a code bug (the same file's decode_item_header only
accepts the three reserved marker tags, which the produced tag is not). -/
theorem encode_item_header_tag_bytes_bug :
    encode_item_header 1 = [0xE0, 0x00, 0x00, 0x00, 0x00, 0x00, 0x00, 0x01] ∧
    encode_item_header 1 ≠ [0xFF, 0xFE, 0xE0, 0x00, 0x00, 0x00, 0x00, 0x01] := by
  decide

/-- C2: the claim says encode_item_delimiter writes tag (0xFFFE, 0xE00D) and
encode_sequence_delimiter writes tag (0xFFFE, 0xE0DD), each followed by a
zero length field.  The code instead emits tag bytes [0xE0, 0x0D, 0x00,
0x00] and [0xE0, 0xDD, 0x00, 0x00]: the same offset-0 overwrite bug as in
encode_item_header. -/
theorem encode_delimiters_tag_bytes_bug :
    encode_item_delimiter = [0xE0, 0x0D, 0x00, 0x00, 0x00, 0x00, 0x00, 0x00] ∧
    encode_item_delimiter ≠ [0xFF, 0xFE, 0xE0, 0x0D, 0x00, 0x00, 0x00, 0x00] ∧
    encode_sequence_delimiter =
      [0xE0, 0xDD, 0x00, 0x00, 0x00, 0x00, 0x00, 0x00] ∧
    encode_sequence_delimiter ≠
      [0xFF, 0xFE, 0xE0, 0xDD, 0x00, 0x00, 0x00, 0x00] := by
  decide

/-- C3: encoding a data element header and decoding the result yields a
header with the same tag and the same VR, and with the same length provided
the length fits the length-field width of the VR category (any u32 for the
long form, at most 0xFFFF for the short form). -/
theorem encode_decode_header_roundtrip (vr : ValueRepresentation)
    (g e len : Nat) (hg : g < 65536) (he : e < 65536)
    (hlen : len < 4294967296) (rest : List Nat) :
    ∃ de : DataElementHeader,
      decode_header (encode_element_header ⟨(g, e), vr, len⟩ ++ rest) =
        (Except.ok de, rest) ∧
      de.tag = (g, e) ∧ de.vr = vr ∧
      (isLongVR vr = true → de.len = len) ∧
      (isLongVR vr = false → len ≤ 65535 → de.len = len) := by
  refine ⟨⟨(g, e), vr, if isLongVR vr = true then len else len % 65536⟩,
    decode_encode_eq vr g e len hg he hlen rest, rfl, rfl, ?_, ?_⟩
  · intro h; simp [h]
  · intro h hfit; simp [h]; omega

/-- Witness for C3 at the repository test vector: tag (2,2), VR UI,
length 26. -/
theorem encode_decode_header_roundtrip_witness :
    ∃ de : DataElementHeader,
      decode_header (encode_element_header
          ⟨(2, 2), ValueRepresentation.UI, 26⟩ ++ [49, 46]) =
        (Except.ok de, [49, 46]) ∧
      de.tag = (2, 2) ∧ de.vr = ValueRepresentation.UI ∧
      (isLongVR ValueRepresentation.UI = true → de.len = 26) ∧
      (isLongVR ValueRepresentation.UI = false → 26 ≤ 65535 → de.len = 26) :=
  encode_decode_header_roundtrip ValueRepresentation.UI 2 2 26
    (by decide) (by decide) (by decide) [49, 46]

/-- C4: decode_item_header succeeds exactly when the decoded tag is one of
the three reserved marker tags, returning the header; for any other tag it
returns the invalid-structure error and no header. -/
theorem decode_item_header_marker_validation
    (b0 b1 b2 b3 l0 l1 l2 l3 : Nat) (rest : List Nat) :
    (((read_u16be b0 b1, read_u16be b2 b3) = ((0xFFFE : Nat), (0xE000 : Nat)) ∨
      (read_u16be b0 b1, read_u16be b2 b3) = ((0xFFFE : Nat), (0xE00D : Nat)) ∨
      (read_u16be b0 b1, read_u16be b2 b3) = ((0xFFFE : Nat), (0xE0DD : Nat))) →
      decode_item_header (b0::b1::b2::b3::l0::l1::l2::l3::rest) =
        (Except.ok ⟨(read_u16be b0 b1, read_u16be b2 b3),
          read_u32be l0 l1 l2 l3⟩, rest)) ∧
    (¬((read_u16be b0 b1, read_u16be b2 b3) = ((0xFFFE : Nat), (0xE000 : Nat)) ∨
      (read_u16be b0 b1, read_u16be b2 b3) = ((0xFFFE : Nat), (0xE00D : Nat)) ∨
      (read_u16be b0 b1, read_u16be b2 b3) = ((0xFFFE : Nat), (0xE0DD : Nat))) →
      decode_item_header (b0::b1::b2::b3::l0::l1::l2::l3::rest) =
        (Except.error Err.invalidFormat, rest)) := by
  constructor <;> intro h <;>
    simp only [decode_item_header, read4, SequenceItemHeader.new]
  · rw [if_pos h]
  · rw [if_neg h]

/-- Witness for C4: the item-start tag is accepted; tag (8, 0) is
rejected. -/
theorem decode_item_header_marker_validation_witness :
    decode_item_header [0xFF, 0xFE, 0xE0, 0x00, 0, 0, 0, 4, 7] =
      (Except.ok ⟨(read_u16be 0xFF 0xFE, read_u16be 0xE0 0x00),
        read_u32be 0 0 0 4⟩, [7]) ∧
    decode_item_header [0x00, 0x08, 0x00, 0x00, 0, 0, 0, 0] =
      (Except.error Err.invalidFormat, []) :=
  ⟨(decode_item_header_marker_validation 0xFF 0xFE 0xE0 0x00 0 0 0 4 [7]).1
      (by decide),
   (decode_item_header_marker_validation 0x00 0x08 0x00 0x00 0 0 0 0 []).2
      (by decide)⟩

/-- C5: when the two VR bytes match no defined VR code, decode_header
succeeds (given enough input), substitutes UN, and reads the length with the
long-form layout: two reserved bytes are discarded and the 4-byte big-endian
field is the length. -/
theorem decode_header_unknown_vr_fallback
    (b0 b1 b2 b3 v0 v1 r0 r1 l0 l1 l2 l3 : Nat) (rest : List Nat)
    (h : ValueRepresentation.from_binary (v0, v1) = none) :
    decode_header (b0::b1::b2::b3::v0::v1::r0::r1::l0::l1::l2::l3::rest) =
      (Except.ok ⟨(read_u16be b0 b1, read_u16be b2 b3),
        ValueRepresentation.UN, read_u32be l0 l1 l2 l3⟩, rest) :=
  decode_header_long_of b0 b1 b2 b3 v0 v1 r0 r1 l0 l1 l2 l3 rest
    ValueRepresentation.UN (by simp [h]) rfl

/-- Witness for C5: the byte pair (88, 88), i.e. ASCII XX, matches no
defined VR code. -/
theorem decode_header_unknown_vr_fallback_witness :
    decode_header [0, 8, 0, 0, 88, 88, 9, 9, 0, 0, 0, 5, 7, 7] =
      (Except.ok ⟨(read_u16be 0 8, read_u16be 0 0),
        ValueRepresentation.UN, read_u32be 0 0 0 5⟩, [7, 7]) :=
  decode_header_unknown_vr_fallback 0 8 0 0 88 88 9 9 0 0 0 5 [7, 7]
    (by decide)

set_option maxHeartbeats 1000000 in
/-- C6: encoding a long-form-VR header emits exactly 12 bytes and a
short-form-VR header exactly 8; decoding consumes exactly 12 respectively 8
bytes, leaving the following value bytes untouched. -/
theorem header_layout_byte_lengths :
    (∀ de : DataElementHeader,
      (encode_element_header de).length =
        if isLongVR de.vr = true then 12 else 8) ∧
    (∀ b0 b1 b2 b3 v0 v1 r0 r1 l0 l1 l2 l3 : Nat, ∀ rest : List Nat,
      isLongVR ((ValueRepresentation.from_binary (v0, v1)).getD
        ValueRepresentation.UN) = true →
      decode_header (b0::b1::b2::b3::v0::v1::r0::r1::l0::l1::l2::l3::rest) =
        (Except.ok ⟨(read_u16be b0 b1, read_u16be b2 b3),
          (ValueRepresentation.from_binary (v0, v1)).getD
            ValueRepresentation.UN, read_u32be l0 l1 l2 l3⟩, rest)) ∧
    (∀ b0 b1 b2 b3 v0 v1 l0 l1 : Nat, ∀ rest : List Nat,
      isLongVR ((ValueRepresentation.from_binary (v0, v1)).getD
        ValueRepresentation.UN) = false →
      decode_header (b0::b1::b2::b3::v0::v1::l0::l1::rest) =
        (Except.ok ⟨(read_u16be b0 b1, read_u16be b2 b3),
          (ValueRepresentation.from_binary (v0, v1)).getD
            ValueRepresentation.UN, read_u16be l0 l1⟩, rest)) := by
  refine ⟨?_, ?_, ?_⟩
  · intro de
    obtain ⟨tag, vr, len⟩ := de
    cases vr <;>
      simp [encode_element_header, setBytes, write_u16be, write_u32be,
        isLongVR, List.replicate]
  · intro b0 b1 b2 b3 v0 v1 r0 r1 l0 l1 l2 l3 rest h
    exact decode_header_long_of b0 b1 b2 b3 v0 v1 r0 r1 l0 l1 l2 l3 rest
      _ rfl h
  · intro b0 b1 b2 b3 v0 v1 l0 l1 rest h
    exact decode_header_short_of b0 b1 b2 b3 v0 v1 l0 l1 rest _ rfl h

/-- Witness for C6: a 12-byte OB encode, a 12-byte OB decode and an 8-byte
US decode, each leaving the trailing bytes [7, 7] unread. -/
theorem header_layout_byte_lengths_witness :
    (encode_element_header ⟨(1, 2), ValueRepresentation.OB, 5⟩).length =
      (if isLongVR ValueRepresentation.OB = true then 12 else 8) ∧
    decode_header [0, 1, 0, 2, 79, 66, 9, 9, 0, 0, 0, 5, 7, 7] =
      (Except.ok ⟨(read_u16be 0 0x01, read_u16be 0 0x02),
        (ValueRepresentation.from_binary (79, 66)).getD
          ValueRepresentation.UN, read_u32be 0 0 0 5⟩, [7, 7]) ∧
    decode_header [0, 1, 0, 2, 85, 83, 0, 4, 7, 7] =
      (Except.ok ⟨(read_u16be 0 0x01, read_u16be 0 0x02),
        (ValueRepresentation.from_binary (85, 83)).getD
          ValueRepresentation.UN, read_u16be 0 4⟩, [7, 7]) :=
  ⟨header_layout_byte_lengths.1 ⟨(1, 2), ValueRepresentation.OB, 5⟩,
   header_layout_byte_lengths.2.1 0 1 0 2 79 66 9 9 0 0 0 5 [7, 7]
     (by decide),
   header_layout_byte_lengths.2.2 0 1 0 2 85 83 0 4 [7, 7] (by decide)⟩

set_option maxHeartbeats 1000000 in
/-- C7: for a short-form VR the encoder writes the length field as len
reduced modulo 65536 (the low 16 bits) in two big-endian bytes, with no
runtime check: the function yields a well-formed 8-byte header for every
u32 len, including len above 0xFFFF. -/
theorem encode_short_form_truncates_len (g e len : Nat)
    (vr : ValueRepresentation) (h : isLongVR vr = false) :
    encode_element_header ⟨(g, e), vr, len⟩ =
      write_u16be g ++ write_u16be e ++ [vr.to_bytes.1, vr.to_bytes.2] ++
        write_u16be (len % 65536) := by
  cases vr <;>
    simp_all [encode_element_header, setBytes, write_u16be, write_u32be,
      isLongVR, ValueRepresentation.to_bytes, List.replicate]

/-- Witness for C7 with len = 70000, which exceeds 0xFFFF. -/
theorem encode_short_form_truncates_len_witness :
    encode_element_header ⟨(1, 2), ValueRepresentation.US, 70000⟩ =
      write_u16be 1 ++ write_u16be 2 ++
        [ValueRepresentation.US.to_bytes.1,
         ValueRepresentation.US.to_bytes.2] ++
        write_u16be (70000 % 65536) :=
  encode_short_form_truncates_len 1 2 70000 ValueRepresentation.US
    (by decide)

/-- C8: the scalar decoders are big-endian: decode_us on [0x12, 0x34] gives
0x1234, decode_ul on [0, 0, 0, 1] gives 1, and decode_ss and decode_sl read
the same 2 or 4 bytes as twos-complement big-endian signed values; each
consumes exactly 2 or 4 bytes. -/
theorem scalar_decoders_big_endian :
    (∀ rest : List Nat,
      decode_us (0x12::0x34::rest) = (Except.ok 0x1234, rest)) ∧
    (∀ rest : List Nat,
      decode_ul (0x00::0x00::0x00::0x01::rest) = (Except.ok 1, rest)) ∧
    (∀ b0 b1 : Nat, ∀ rest : List Nat,
      decode_ss (b0::b1::rest) = (Except.ok (read_i16be b0 b1), rest)) ∧
    (∀ b0 b1 b2 b3 : Nat, ∀ rest : List Nat,
      decode_sl (b0::b1::b2::b3::rest) =
        (Except.ok (read_i32be b0 b1 b2 b3), rest)) ∧
    (∀ rest : List Nat,
      decode_ss (0x12::0x34::rest) = (Except.ok 0x1234, rest)) ∧
    (∀ rest : List Nat,
      decode_ss (0xFF::0xFE::rest) = (Except.ok (-2), rest)) ∧
    (∀ rest : List Nat,
      decode_sl (0xFF::0xFF::0xFF::0xFF::rest) = (Except.ok (-1), rest)) := by
  refine ⟨fun rest => rfl, fun rest => rfl, fun b0 b1 rest => rfl,
    fun b0 b1 b2 b3 rest => rfl, fun rest => ?_, fun rest => ?_,
    fun rest => ?_⟩ <;>
  norm_num [decode_ss, decode_sl, read2, read4, read_i16be, read_i32be,
    read_u16be, read_u32be]

/-- C9: decode_header ignores the two reserved bytes of a long-form header:
two sources differing only in those two bytes decode to identical results
(same header, same remaining bytes). -/
theorem decode_header_reserved_bytes_insensitive
    (b0 b1 b2 b3 v0 v1 r0 r1 q0 q1 l0 l1 l2 l3 : Nat) (rest : List Nat)
    (h : isLongVR ((ValueRepresentation.from_binary (v0, v1)).getD
      ValueRepresentation.UN) = true) :
    decode_header (b0::b1::b2::b3::v0::v1::r0::r1::l0::l1::l2::l3::rest) =
      decode_header (b0::b1::b2::b3::v0::v1::q0::q1::l0::l1::l2::l3::rest) := by
  rw [decode_header_long_of b0 b1 b2 b3 v0 v1 r0 r1 l0 l1 l2 l3 rest _
      rfl h,
    decode_header_long_of b0 b1 b2 b3 v0 v1 q0 q1 l0 l1 l2 l3 rest _
      rfl h]

/-- Witness for C9: an OB header with reserved bytes (0, 0) versus
(9, 9). -/
theorem decode_header_reserved_bytes_insensitive_witness :
    decode_header [0, 1, 0, 2, 79, 66, 0, 0, 0, 0, 0, 5, 7] =
      decode_header [0, 1, 0, 2, 79, 66, 9, 9, 0, 0, 0, 5, 7] :=
  decode_header_reserved_bytes_insensitive 0 1 0 2 79 66 0 0 9 9 0 0 0 5 [7]
    (by decide)

/-- C10: decode_item_header reads all 8 bytes before validating the tag, so
when the tag is not a reserved marker tag it fails with the
invalid-structure error with the source advanced by exactly 8 bytes: the
failure is not read-atomic. -/
theorem decode_item_header_consumes_eight_on_failure
    (b0 b1 b2 b3 l0 l1 l2 l3 : Nat) (rest : List Nat)
    (h : ¬((read_u16be b0 b1, read_u16be b2 b3) =
        ((0xFFFE : Nat), (0xE000 : Nat)) ∨
      (read_u16be b0 b1, read_u16be b2 b3) = ((0xFFFE : Nat), (0xE00D : Nat)) ∨
      (read_u16be b0 b1, read_u16be b2 b3) =
        ((0xFFFE : Nat), (0xE0DD : Nat)))) :
    decode_item_header (b0::b1::b2::b3::l0::l1::l2::l3::rest) =
      (Except.error Err.invalidFormat, rest) := by
  simp only [decode_item_header, read4, SequenceItemHeader.new]
  rw [if_neg h]

/-- Witness for C10: tag (8, 0) is invalid; the two trailing bytes [5, 5]
after the 8 header bytes are exactly what remains. -/
theorem decode_item_header_consumes_eight_on_failure_witness :
    decode_item_header [0, 8, 0, 0, 0, 0, 0, 16, 5, 5] =
      (Except.error Err.invalidFormat, [5, 5]) :=
  decode_item_header_consumes_eight_on_failure 0 8 0 0 0 0 0 16 [5, 5]
    (by decide)

end ExplicitBE
